import Mathlib

/-!
Verification development for the e-cash protocol core: the elastic-supply
ledger (`ECashToken`), the price aggregator (`OracleAggregator`) and the
stabilization controller (`StabilizationController`), shallowly embedded
from the Solidity sources. Machine integers are modelled as `Nat`/`Int`;
a reverting call is modelled as `Except` returning an error, which leaves
the pre-state untouched (EVM revert semantics). Addresses are `Nat`.
-/

namespace ECashToken

/-- Constant `type(uint256).max`. -/
def MAX_UINT256 : Nat := 2 ^ 256 - 1

/-- Constant `INITIAL_FRAGMENTS_SUPPLY = 1_000_000 * 10**18`. -/
def INITIAL_FRAGMENTS_SUPPLY : Nat := 1000000 * 10 ^ 18

/-- Constant `TOTAL_GONS = MAX_UINT256 - (MAX_UINT256 % INITIAL_FRAGMENTS_SUPPLY)`. -/
def TOTAL_GONS : Nat := MAX_UINT256 - MAX_UINT256 % INITIAL_FRAGMENTS_SUPPLY

/-- Constant `MAX_SUPPLY = type(uint128).max`. -/
def MAX_SUPPLY : Nat := 2 ^ 128 - 1

/-- The mutable storage of `ECashToken` that the claims concern. -/
structure State where
  totalSupply : Nat
  gonsPerFragment : Nat
  gonBalances : Nat → Nat
  allowedFragments : Nat → Nat → Nat
  rebaseCount : Nat

/-- How a call into the token can revert. `maxSupplyExceeded` is the
`require(newTotalSupply <= MAX_SUPPLY, "Max supply exceeded")` failure;
`panicDivisionByZero` is the arithmetic panic raised by
`TOTAL_GONS / _totalSupply` when the new total supply is zero. -/
inductive TokenError where
  | maxSupplyExceeded
  | panicDivisionByZero
  deriving Repr, DecidableEq

/-- State after `initialize(name, symbol, admin)`: the whole gon balance is
credited to `admin`. -/
def initialState (admin : Nat) : State where
  totalSupply := INITIAL_FRAGMENTS_SUPPLY
  gonsPerFragment := TOTAL_GONS / INITIAL_FRAGMENTS_SUPPLY
  gonBalances := fun a => if a = admin then TOTAL_GONS else 0
  allowedFragments := fun _ _ => 0
  rebaseCount := 0

/-- Function `ECashToken.rebase(int256 supplyDelta)`. The source increments
`rebaseCount` first, returns early on a zero delta, clamps a negative
result at zero, checks the `MAX_SUPPLY` bound, then recomputes
`_gonsPerFragment = TOTAL_GONS / _totalSupply` — a division that panics
(reverting the whole call, the `rebaseCount` increment included) when the
clamped new total supply is zero. The local variable `newTotalSupply` of
the source is factored out as `newTotalSupplyOf`: a negative delta larger
in magnitude than the current supply clamps to `0`. -/
def newTotalSupplyOf (supplyDelta : Int) (s : State) : Nat :=
  if supplyDelta < 0 then
    if s.totalSupply > (-supplyDelta).toNat then s.totalSupply - (-supplyDelta).toNat else 0
  else
    s.totalSupply + supplyDelta.toNat

def rebase (supplyDelta : Int) (s : State) : Except TokenError State :=
  if supplyDelta = 0 then
    Except.ok { s with rebaseCount := s.rebaseCount + 1 }
  else if newTotalSupplyOf supplyDelta s > MAX_SUPPLY then
    Except.error TokenError.maxSupplyExceeded
  else if newTotalSupplyOf supplyDelta s = 0 then
    Except.error TokenError.panicDivisionByZero
  else
    Except.ok { s with
      totalSupply := newTotalSupplyOf supplyDelta s
      gonsPerFragment := TOTAL_GONS / newTotalSupplyOf supplyDelta s
      rebaseCount := s.rebaseCount + 1 }

/-- Function `balanceOf(account) = _gonBalances[account] / _gonsPerFragment`. -/
def balanceOf (s : State) (account : Nat) : Nat :=
  s.gonBalances account / s.gonsPerFragment

end ECashToken

namespace OracleAggregator

/-- Constant `MIN_ORACLES_REQUIRED = 1`. -/
def MIN_ORACLES_REQUIRED : Nat := 1

/-- Sentinel the loop starts `oldestTimestamp` from: `type(uint256).max`. -/
def UINT256_MAX : Nat := 2 ^ 256 - 1

/-- One entry of `oracleKeys`/`oracles`, together with the outcome of the
external `latestRoundData()` call at aggregation time: `none` when the call
reverts (caught by `try`/`catch`), `some (answer, updatedAt)` otherwise. -/
structure Src where
  weight : Nat
  heartbeat : Nat
  decimals : Nat
  isActive : Bool
  fetch : Option (Int × Nat)

/-- Function `_normalizePrice(price, decimals)`: rescale to 18 decimals, flooring. -/
def normalizePrice (price : Nat) (decimals : Nat) : Nat :=
  if decimals = 18 then price
  else if decimals < 18 then price * 10 ^ (18 - decimals)
  else price / 10 ^ (decimals - 18)

/-- How `getAggregatedPrice` can revert: the two explicit `require`s on the
loop's result, the up-front registry-size `require`, and the uncaught
arithmetic panic of `block.timestamp - updatedAt` when a quote's timestamp
lies in the future. -/
inductive AggError where
  | insufficientOracles
  | insufficientValidOracles
  | noValidOracleData
  | panicUnderflow
  deriving Repr, DecidableEq

/-- Running accumulator of the aggregation loop. -/
structure Acc where
  totalWeight : Nat
  weightedSum : Nat
  oldestTimestamp : Nat
  validOracles : Nat
  deriving Repr, DecidableEq

/-- One iteration of the loop in `getAggregatedPrice`: skip inactive
sources and failed fetches, keep a quote only if `answer > 0`,
`updatedAt > 0` and `block.timestamp - updatedAt <= heartbeat`; that
subtraction panics when `updatedAt > block.timestamp`. -/
def aggStep (now : Nat) (acc : Acc) (src : Src) : Except AggError Acc :=
  if src.isActive = false then Except.ok acc
  else
    match src.fetch with
    | none => Except.ok acc
    | some (answer, updatedAt) =>
      if 0 < answer ∧ 0 < updatedAt then
        if now < updatedAt then Except.error AggError.panicUnderflow
        else if now - updatedAt ≤ src.heartbeat then
          Except.ok
            { totalWeight := acc.totalWeight + src.weight
              weightedSum :=
                acc.weightedSum + normalizePrice answer.toNat src.decimals * src.weight
              oldestTimestamp :=
                if updatedAt < acc.oldestTimestamp then updatedAt else acc.oldestTimestamp
              validOracles := acc.validOracles + 1 }
        else Except.ok acc
      else Except.ok acc

/-- Function `getAggregatedPrice()` over the registry array, `block.timestamp = now`:
returns `(price, timestamp, confidence)`. -/
def getAggregatedPrice (now : Nat) (sources : List Src) :
    Except AggError (Nat × Nat × Nat) :=
  if sources.length < MIN_ORACLES_REQUIRED then
    Except.error AggError.insufficientOracles
  else
    match sources.foldlM (aggStep now) (Acc.mk 0 0 UINT256_MAX 0) with
    | Except.error e => Except.error e
    | Except.ok acc =>
      if acc.validOracles < MIN_ORACLES_REQUIRED then
        Except.error AggError.insufficientValidOracles
      else if acc.totalWeight = 0 then
        Except.error AggError.noValidOracleData
      else
        Except.ok (acc.weightedSum / acc.totalWeight, acc.oldestTimestamp,
          acc.validOracles * 100 / sources.length)

/-- Modelled from the spec (section 4.1 `computeAggregate`), for comparison
with `getAggregatedPrice`: a quote is kept unless its fetch failed, its
value is non-positive, or its age exceeds the source's heartbeat. -/
def specAccepts (now : Nat) (src : Src) : Bool :=
  match src.fetch with
  | none => false
  | some (answer, updatedAt) => 0 < answer && now - updatedAt ≤ src.heartbeat

/-- Modelled from the spec (section 4.1 `computeAggregate`): filter the
accepted quotes, then return `(weightedSum / totalWeight, oldest accepted
timestamp, validSources * 100 / activeSources)` with floor division, or
`none` when fewer than `MIN_ORACLES_REQUIRED` quotes survive or the total
weight is zero. -/
def specValue (src : Src) : Nat :=
  match src.fetch with
  | none => 0
  | some (answer, _) => normalizePrice answer.toNat src.decimals

def specTimestamp (src : Src) : Nat :=
  match src.fetch with
  | none => 0
  | some (_, updatedAt) => updatedAt

def specAggregate (now : Nat) (sources : List Src) : Option (Nat × Nat × Nat) :=
  let kept := sources.filter (specAccepts now)
  let totalWeight := (kept.map Src.weight).sum
  let weightedSum := (kept.map (fun src => specValue src * src.weight)).sum
  let oldest := (kept.map specTimestamp).foldl min UINT256_MAX
  if kept.length < MIN_ORACLES_REQUIRED ∨ totalWeight = 0 then none
  else some (weightedSum / totalWeight, oldest, kept.length * 100 / sources.length)

end OracleAggregator

namespace StabilizationController

/-- Constant `TARGET_PRICE = 1e18` (one dollar at 18 decimals). -/
def TARGET_PRICE : Nat := 10 ^ 18

/-- Constant `REBASE_COOLDOWN = 12 hours` (in seconds). -/
def REBASE_COOLDOWN : Nat := 12 * 60 * 60

/-- Constant `MAX_REBASE_PERCENTAGE = 10e16` (10 percent). -/
def MAX_REBASE_PERCENTAGE : Nat := 10 * 10 ^ 16

/-- Constant `BAND_1_THRESHOLD = 1e16` (1 percent). -/
def BAND_1_THRESHOLD : Nat := 10 ^ 16

/-- Constant `BAND_2_THRESHOLD = 5e16` (5 percent). -/
def BAND_2_THRESHOLD : Nat := 5 * 10 ^ 16

/-- Constant `BAND_3_THRESHOLD = 10e16` (10 percent). -/
def BAND_3_THRESHOLD : Nat := 10 * 10 ^ 16

/-- Constant `BAND_4_THRESHOLD = 20e16` (20 percent). -/
def BAND_4_THRESHOLD : Nat := 20 * 10 ^ 16

/-- Constant `BAND_1_DAMPING = 10e16` (10 percent). -/
def BAND_1_DAMPING : Nat := 10 * 10 ^ 16

/-- Constant `BAND_2_DAMPING = 25e16` (25 percent). -/
def BAND_2_DAMPING : Nat := 25 * 10 ^ 16

/-- Constant `BAND_3_DAMPING = 50e16` (50 percent). -/
def BAND_3_DAMPING : Nat := 50 * 10 ^ 16

/-- Constant `BAND_4_DAMPING = 75e16` (75 percent). -/
def BAND_4_DAMPING : Nat := 75 * 10 ^ 16

/-- One row of the `rebaseHistory` mapping. -/
structure RebaseData where
  timestamp : Nat
  price : Nat
  supplyDelta : Int
  newSupply : Nat
  stabilityBand : Nat
  deriving Repr, DecidableEq

/-- The controller's mutable storage, together with the token it drives. -/
structure State where
  lastRebaseTime : Nat
  rebaseCount : Nat
  circuitBreakerActive : Bool
  rebaseHistory : Nat → Option RebaseData
  token : ECashToken.State

/-- Controller state right after `initialize`, over a given token state. -/
def initialState (token : ECashToken.State) : State where
  lastRebaseTime := 0
  rebaseCount := 0
  circuitBreakerActive := false
  rebaseHistory := fun _ => none
  token := token

/-- How `StabilizationController.rebase()` can revert: its own two
`require`s, the `require(confidence >= 50)` check, a revert bubbling up
from `oracleAggregator.getAggregatedPrice()`, and a revert bubbling up
from `ecashToken.rebase`. -/
inductive CtrlError where
  | circuitBreakerIsActive
  | rebaseConditionsNotMet
  | insufficientOracleConfidence
  | oracleReverted (e : OracleAggregator.AggError)
  | tokenReverted (e : ECashToken.TokenError)
  deriving Repr, DecidableEq

/-- Function `_calculateDeviation(price)`: `|price - TARGET_PRICE| * 1e18 /
TARGET_PRICE`, computed branch-wise on unsigned integers. -/
def calculateDeviation (price : Nat) : Nat :=
  if price ≥ TARGET_PRICE then
    (price - TARGET_PRICE) * 10 ^ 18 / TARGET_PRICE
  else
    (TARGET_PRICE - price) * 10 ^ 18 / TARGET_PRICE

/-- Function `_getStabilityBand(deviation)`: thresholds check downwards,
a boundary value falls in the higher band. -/
def getStabilityBand (deviation : Nat) : Nat :=
  if deviation ≥ BAND_4_THRESHOLD then 4
  else if deviation ≥ BAND_3_THRESHOLD then 3
  else if deviation ≥ BAND_2_THRESHOLD then 2
  else if deviation ≥ BAND_1_THRESHOLD then 1
  else 0

/-- Function `_getDampingFactor(band)`. -/
def getDampingFactor (band : Nat) : Nat :=
  if band = 4 then BAND_4_DAMPING
  else if band = 3 then BAND_3_DAMPING
  else if band = 2 then BAND_2_DAMPING
  else if band = 1 then BAND_1_DAMPING
  else 0

/-- Function `_calculateSupplyDelta(price, stabilityBand)` reading
`currentSupply = ecashToken.totalSupply()`: raw adjustment, band damping,
cap at `MAX_REBASE_PERCENTAGE`, sign by the side of the peg.
`supplyDeltaFor` packages the call `_calculateSupplyDelta(price,
_getStabilityBand(_calculateDeviation(price)))` made by `rebase()` and
`previewRebase()`. -/
def calculateSupplyDelta (price : Nat) (stabilityBand : Nat)
    (currentSupply : Nat) : Int :=
  if price = TARGET_PRICE then 0
  else
    let deviation : Nat := calculateDeviation price
    let dampingFactor : Nat := getDampingFactor stabilityBand
    let rawAdjustment : Nat := currentSupply * deviation / 10 ^ 18
    let dampedAdjustment : Nat := rawAdjustment * dampingFactor / 10 ^ 18
    let maxAdjustment : Nat := currentSupply * MAX_REBASE_PERCENTAGE / 10 ^ 18
    let capped : Nat :=
      if dampedAdjustment > maxAdjustment then maxAdjustment else dampedAdjustment
    if price > TARGET_PRICE then (capped : Int) else -(capped : Int)

/-- Function `canRebase()`: `block.timestamp >= lastRebaseTime +
REBASE_COOLDOWN`. It does not look at the circuit breaker. -/
def canRebase (now : Nat) (s : State) : Bool :=
  decide (s.lastRebaseTime + REBASE_COOLDOWN ≤ now)

/-- Result of `oracleAggregator.getAggregatedPrice()` as seen by the
controller: a revert, or a `(price, timestamp, confidence)` triple. -/
abbrev OracleOutcome := Except OracleAggregator.AggError (Nat × Nat × Nat)

/-- Function `StabilizationController.rebase()`, at `block.timestamp = now`
and with the aggregator's answer supplied as `oracle`. Mirrors the source
line by line: the two `require`s, the confidence check, the circuit-breaker
latch on `deviation >= BAND_4_THRESHOLD` (an early successful return), and
the `supplyDelta != 0` guard around the token call and the bookkeeping
(`rebaseCount`, `lastRebaseTime`, `rebaseHistory`). -/
def supplyDeltaFor (price : Nat) (s : State) : Int :=
  calculateSupplyDelta price (getStabilityBand (calculateDeviation price)) s.token.totalSupply

/-- Function `rebase()` of the controller, see the previous comment. -/
def rebase (now : Nat) (oracle : OracleOutcome) (s : State) :
    Except CtrlError State :=
  if s.circuitBreakerActive then Except.error CtrlError.circuitBreakerIsActive
  else if canRebase now s = false then Except.error CtrlError.rebaseConditionsNotMet
  else
    match oracle with
    | Except.error e => Except.error (CtrlError.oracleReverted e)
    | Except.ok (price, timestamp, confidence) =>
      if confidence < 50 then Except.error CtrlError.insufficientOracleConfidence
      else if calculateDeviation price ≥ BAND_4_THRESHOLD then
        Except.ok { s with circuitBreakerActive := true }
      else if supplyDeltaFor price s ≠ 0 then
        match ECashToken.rebase (supplyDeltaFor price s) s.token with
        | Except.error e => Except.error (CtrlError.tokenReverted e)
        | Except.ok token1 =>
          Except.ok { s with
            token := token1
            rebaseCount := s.rebaseCount + 1
            lastRebaseTime := now
            rebaseHistory := fun epoch =>
              if epoch = s.rebaseCount + 1 then
                some ⟨timestamp, price, supplyDeltaFor price s, token1.totalSupply,
                  getStabilityBand (calculateDeviation price)⟩
              else s.rebaseHistory epoch }
      else Except.ok s

/-- Result record of `previewRebase()`. -/
structure Preview where
  canExecute : Bool
  currentPrice : Nat
  deviation : Nat
  projectedSupplyDelta : Int
  stabilityBand : Nat
  deriving Repr, DecidableEq

/-- Function `previewRebase()`, at `block.timestamp = now` and with the
aggregator's answer supplied as `oracle`. All named return values start at
their zero defaults; `canExecute` is first set from `canRebase()` and the
circuit breaker, then forced to `false` only in the `catch` branch; a
successful low-confidence reading leaves every other field at zero without
touching `canExecute`. -/
def previewRebase (now : Nat) (oracle : OracleOutcome) (s : State) : Preview :=
  match oracle with
  | Except.error _ =>
    { canExecute := false, currentPrice := 0, deviation := 0
      projectedSupplyDelta := 0, stabilityBand := 0 }
  | Except.ok (price, _, confidence) =>
    if confidence ≥ 50 then
      { canExecute := canRebase now s && !s.circuitBreakerActive
        currentPrice := price
        deviation := calculateDeviation price
        projectedSupplyDelta := supplyDeltaFor price s
        stabilityBand := getStabilityBand (calculateDeviation price) }
    else
      { canExecute := canRebase now s && !s.circuitBreakerActive
        currentPrice := 0, deviation := 0
        projectedSupplyDelta := 0, stabilityBand := 0 }

/-- Function `resetCircuitBreaker()`: clears the latch, touches nothing
else (in particular not `lastRebaseTime`). -/
def resetCircuitBreaker (s : State) : State :=
  { s with circuitBreakerActive := false }

/-- The externally triggerable operations on the controller that the
state-machine claims quantify over. -/
inductive Op where
  | doRebase (now : Nat) (oracle : OracleOutcome)
  | doReset
  | doPreview (now : Nat) (oracle : OracleOutcome)

/-- Effect of one external call on the controller state: a reverting
`rebase()` leaves the state unchanged (EVM rollback), `previewRebase()` is
a view and never writes. -/
def applyOp (op : Op) (s : State) : State :=
  match op with
  | Op.doRebase now oracle =>
    match rebase now oracle s with
    | Except.ok s1 => s1
    | Except.error _ => s
  | Op.doReset => resetCircuitBreaker s
  | Op.doPreview _ _ => s

end StabilizationController

namespace Scenario

/-- Token state right after genesis, with holder `0` as admin. -/
def token0 : ECashToken.State := ECashToken.initialState 0

/-- Controller state right after deployment over `token0`. -/
def ctrl0 : StabilizationController.State := StabilizationController.initialState token0

/-- The same controller state with the circuit breaker latched. -/
def cbOn : StabilizationController.State := { ctrl0 with circuitBreakerActive := true }

/-- A fresh source: weight 50, heartbeat 3600 s, quote 1.01 dollars at t = 900. -/
def freshSrc : OracleAggregator.Src := ⟨50, 3600, 18, true, some (101 * 10 ^ 16, 900)⟩

/-- A stale source: weight 50, heartbeat 60 s, quote 0.99 dollars at t = 100,
so its age at t = 1000 is 900 > 60. -/
def staleSrc : OracleAggregator.Src := ⟨50, 60, 18, true, some (99 * 10 ^ 16, 100)⟩

end Scenario

/-- C4 counterexample: with the circuit breaker latched, the cooldown long
elapsed and the latch set, `canRebase()` still returns `true`, so it is not
equivalent to "cooldown elapsed and state Normal" as the claim requires. -/
theorem C4_counterexample :
    StabilizationController.canRebase 43200 Scenario.cbOn = true ∧
    Scenario.cbOn.circuitBreakerActive = true ∧
    ¬(StabilizationController.canRebase 43200 Scenario.cbOn = true ↔
        (Scenario.cbOn.lastRebaseTime + StabilizationController.REBASE_COOLDOWN ≤ 43200 ∧
          Scenario.cbOn.circuitBreakerActive = false)) := by
  refine ⟨rfl, rfl, fun h => ?_⟩
  have := (h.mp rfl).2
  simp [Scenario.cbOn, Scenario.ctrl0, StabilizationController.initialState] at this

/-- C4 amended: `canRebase()` is the pure cooldown check
`now ≥ lastRebaseTime + REBASE_COOLDOWN`; it does not consult the circuit
breaker, whose check is a separate `require` inside `rebase()`. -/
theorem C4_canRebase_cooldown_only (now : Nat) (s : StabilizationController.State) :
    (StabilizationController.canRebase now s = true ↔
      s.lastRebaseTime + StabilizationController.REBASE_COOLDOWN ≤ now) ∧
    (∀ b, StabilizationController.canRebase now
        { s with circuitBreakerActive := b } = StabilizationController.canRebase now s) := by
  constructor
  · simp [StabilizationController.canRebase]
  · intro b
    rfl

/-- C6: the band classifier sends the exact boundary deviations 1e16 (1%),
5e16 (5%), 10e16 (10%) and 20e16 (20%) to bands 1, 2, 3 and 4, and every
deviation strictly below 1e16 to band 0. -/
theorem C6_band_boundaries :
    StabilizationController.getStabilityBand (10 ^ 16) = 1 ∧
    StabilizationController.getStabilityBand (5 * 10 ^ 16) = 2 ∧
    StabilizationController.getStabilityBand (10 * 10 ^ 16) = 3 ∧
    StabilizationController.getStabilityBand (20 * 10 ^ 16) = 4 ∧
    ∀ d : Nat, d < 10 ^ 16 → StabilizationController.getStabilityBand d = 0 := by
  refine ⟨rfl, rfl, rfl, rfl, fun d hd => ?_⟩
  unfold StabilizationController.getStabilityBand
  rw [if_neg, if_neg, if_neg, if_neg] <;>
    simp only [not_le, StabilizationController.BAND_1_THRESHOLD,
      StabilizationController.BAND_2_THRESHOLD, StabilizationController.BAND_3_THRESHOLD,
      StabilizationController.BAND_4_THRESHOLD] <;>
    omega

/-- C6 witness: the deviation 0.99% = 99e14 lies strictly below the 1%
threshold and is classified into band 0. -/
theorem C6_band_boundaries_witness :
    99 * 10 ^ 14 < 10 ^ 16 ∧ StabilizationController.getStabilityBand (99 * 10 ^ 14) = 0 :=
  ⟨by norm_num, C6_band_boundaries.2.2.2.2 (99 * 10 ^ 14) (by norm_num)⟩

/-- C8: worked scenario — supply 1,000,000 tokens (1e24 base units),
price 1.02 dollars: deviation 2%, band 1, raw adjustment 20,000 tokens,
damped adjustment 2,000 tokens, cap 100,000 tokens not binding, signed
delta +2,000 tokens, and executing the ledger rebase from genesis yields a
total supply of 1,002,000 tokens. -/
theorem C8_worked_scenario :
    StabilizationController.calculateDeviation (102 * 10 ^ 16) = 2 * 10 ^ 16 ∧
    StabilizationController.getStabilityBand (2 * 10 ^ 16) = 1 ∧
    10 ^ 24 * (2 * 10 ^ 16) / 10 ^ 18 = 20000 * 10 ^ 18 ∧
    20000 * 10 ^ 18 * StabilizationController.getDampingFactor 1 / 10 ^ 18 = 2000 * 10 ^ 18 ∧
    10 ^ 24 * StabilizationController.MAX_REBASE_PERCENTAGE / 10 ^ 18 = 100000 * 10 ^ 18 ∧
    2000 * 10 ^ 18 ≤ 100000 * 10 ^ 18 ∧
    StabilizationController.calculateSupplyDelta (102 * 10 ^ 16) 1 (10 ^ 24) = 2000 * 10 ^ 18 ∧
    (ECashToken.rebase (2000 * 10 ^ 18) Scenario.token0).map ECashToken.State.totalSupply =
      Except.ok (1002000 * 10 ^ 18) := by
  refine ⟨rfl, rfl, rfl, rfl, rfl, by norm_num, rfl, rfl⟩

/-- C1 counterexample: at genesis supply 1e24, the delta -1e24 gives
newSupply = 0, which lies inside [0, MAX_SUPPLY], so the claim says the
rebase succeeds; the code instead clamps to zero and reverts on the
division `TOTAL_GONS / 0`, refuting the claim as stated. -/
theorem C1_counterexample :
    (0 : Int) ≤ ((Scenario.token0.totalSupply : Int) + (-(10 ^ 24 : Int))) ∧
    ((Scenario.token0.totalSupply : Int) + (-(10 ^ 24 : Int))) ≤ (ECashToken.MAX_SUPPLY : Int) ∧
    ECashToken.rebase (-(10 ^ 24 : Int)) Scenario.token0 =
      Except.error ECashToken.TokenError.panicDivisionByZero := by
  refine ⟨?_, ?_, rfl⟩ <;>
    norm_num [Scenario.token0, ECashToken.initialState, ECashToken.INITIAL_FRAGMENTS_SUPPLY,
      ECashToken.MAX_SUPPLY]

/-- C1 amended: `rebase(delta)` computes newSupply = totalSupply + delta
(clamped below at 0) and reverts whenever newSupply falls outside
(0, MAX_SUPPLY] — above MAX_SUPPLY with the max-supply require, at or
below zero with the `TOTAL_GONS / 0` division panic — leaving the state
unchanged (no partial mutation); otherwise it sets
sharesPerUnit = TOTAL_GONS / newSupply and totalSupply = newSupply. -/
theorem C1_rebase_supply_bounds (s : ECashToken.State) (delta : Int)
    (hpos : 0 < s.totalSupply) (hmax : s.totalSupply ≤ ECashToken.MAX_SUPPLY) :
    (((ECashToken.MAX_SUPPLY : Int) < (s.totalSupply : Int) + delta) →
        ECashToken.rebase delta s = Except.error ECashToken.TokenError.maxSupplyExceeded) ∧
    ((delta ≠ 0 ∧ (s.totalSupply : Int) + delta ≤ 0) →
        ECashToken.rebase delta s = Except.error ECashToken.TokenError.panicDivisionByZero) ∧
    ((delta ≠ 0 ∧ 0 < (s.totalSupply : Int) + delta ∧
        (s.totalSupply : Int) + delta ≤ (ECashToken.MAX_SUPPLY : Int)) →
        ECashToken.rebase delta s = Except.ok { s with
          totalSupply := ((s.totalSupply : Int) + delta).toNat
          gonsPerFragment := ECashToken.TOTAL_GONS / ((s.totalSupply : Int) + delta).toNat
          rebaseCount := s.rebaseCount + 1 }) := by
  have hval : ∀ hd0 : ¬ delta = 0, (s.totalSupply : Int) + delta ≤ 0 →
      ECashToken.newTotalSupplyOf delta s = 0 := by
    intro hd0 hle
    unfold ECashToken.newTotalSupplyOf
    rw [if_pos (by omega : delta < 0), if_neg (by omega : ¬ s.totalSupply > (-delta).toNat)]
  have hval2 : 0 < (s.totalSupply : Int) + delta →
      ECashToken.newTotalSupplyOf delta s = ((s.totalSupply : Int) + delta).toNat := by
    intro h0
    unfold ECashToken.newTotalSupplyOf
    by_cases hdneg : delta < 0
    · rw [if_pos hdneg, if_pos (by omega : s.totalSupply > (-delta).toNat)]
      omega
    · rw [if_neg hdneg]
      omega
  refine ⟨?_, ?_, ?_⟩
  · intro hgt
    have hd0 : ¬ delta = 0 := by omega
    unfold ECashToken.rebase
    rw [if_neg hd0, if_pos (by rw [hval2 (by omega)]; omega)]
  · rintro ⟨hd0, hle⟩
    unfold ECashToken.rebase
    rw [if_neg hd0, if_neg (by rw [hval hd0 hle]; simp), if_pos (hval hd0 hle)]
  · rintro ⟨hd0, h0, hle⟩
    unfold ECashToken.rebase
    rw [if_neg hd0, if_neg (by rw [hval2 h0]; omega), if_neg (by rw [hval2 h0]; omega),
      hval2 h0]

/-- C1 witness: from genesis, a delta of +1e24 is in bounds and doubles
the supply, recomputing gonsPerFragment. -/
theorem C1_rebase_supply_bounds_witness :
    ECashToken.rebase (10 ^ 24) Scenario.token0 = Except.ok { Scenario.token0 with
      totalSupply := ((Scenario.token0.totalSupply : Int) + 10 ^ 24).toNat
      gonsPerFragment := ECashToken.TOTAL_GONS / ((Scenario.token0.totalSupply : Int) + 10 ^ 24).toNat
      rebaseCount := Scenario.token0.rebaseCount + 1 } :=
  (C1_rebase_supply_bounds Scenario.token0 (10 ^ 24)
      (by norm_num [Scenario.token0, ECashToken.initialState, ECashToken.INITIAL_FRAGMENTS_SUPPLY])
      (by norm_num [Scenario.token0, ECashToken.initialState, ECashToken.INITIAL_FRAGMENTS_SUPPLY,
        ECashToken.MAX_SUPPLY])).2.2
    ⟨by norm_num,
      by norm_num [Scenario.token0, ECashToken.initialState, ECashToken.INITIAL_FRAGMENTS_SUPPLY],
      by norm_num [Scenario.token0, ECashToken.initialState, ECashToken.INITIAL_FRAGMENTS_SUPPLY,
        ECashToken.MAX_SUPPLY]⟩

/-- C5: a ledger rebase that succeeds never touches any holder share (gon)
balance, nor any allowance: its writes are confined to `totalSupply`,
`gonsPerFragment` (and the `rebaseCount` bookkeeping counter). -/
theorem C5_rebase_frame (s s1 : ECashToken.State) (delta : Int)
    (h : ECashToken.rebase delta s = Except.ok s1) :
    s1.gonBalances = s.gonBalances ∧ s1.allowedFragments = s.allowedFragments := by
  unfold ECashToken.rebase at h
  split at h
  · cases h
    exact ⟨rfl, rfl⟩
  · split at h
    · cases h
    · split at h
      · cases h
      · cases h
        exact ⟨rfl, rfl⟩

/-- C5 witness: the zero-delta rebase from genesis succeeds and preserves
the gon balances and allowances verbatim. -/
theorem C5_rebase_frame_witness :
    ({ Scenario.token0 with rebaseCount := 1 } : ECashToken.State).gonBalances =
        Scenario.token0.gonBalances ∧
    ({ Scenario.token0 with rebaseCount := 1 } : ECashToken.State).allowedFragments =
        Scenario.token0.allowedFragments :=
  C5_rebase_frame Scenario.token0 { Scenario.token0 with rebaseCount := 1 } 0 rfl

/-- C10: a negative delta whose magnitude reaches the current supply
clamps `newTotalSupply` to 0 and the call reverts on the `TOTAL_GONS / 0`
division, with no state change; consequently every successful rebase from
a positive supply leaves the supply strictly positive, so a zero-supply
state (and a division by zero in a stored `gonsPerFragment`) is never
reachable. -/
theorem C10_no_zero_supply (s : ECashToken.State) (delta : Int)
    (hpos : 0 < s.totalSupply) :
    ((delta < 0 ∧ (s.totalSupply : Int) ≤ -delta) →
        ECashToken.rebase delta s = Except.error ECashToken.TokenError.panicDivisionByZero ∧
        ECashToken.newTotalSupplyOf delta s = 0) ∧
    (∀ s1, ECashToken.rebase delta s = Except.ok s1 → 0 < s1.totalSupply) := by
  constructor
  · rintro ⟨hdneg, hle⟩
    have hval : ECashToken.newTotalSupplyOf delta s = 0 := by
      unfold ECashToken.newTotalSupplyOf
      rw [if_pos hdneg, if_neg (by omega : ¬ s.totalSupply > (-delta).toNat)]
    refine ⟨?_, hval⟩
    unfold ECashToken.rebase
    rw [if_neg (by omega : ¬ delta = 0), if_neg (by rw [hval]; simp), if_pos hval]
  · intro s1 h
    unfold ECashToken.rebase at h
    split at h
    · cases h
      exact hpos
    · split at h
      · cases h
      · split at h
        · cases h
        · rename_i hzero
          cases h
          simp only []
          omega

/-- C10 witness: from genesis supply 1e24, the delta -1e24 clamps to zero
and reverts with the division-by-zero panic. -/
theorem C10_no_zero_supply_witness :
    ECashToken.rebase (-(10 ^ 24 : Int)) Scenario.token0 =
      Except.error ECashToken.TokenError.panicDivisionByZero ∧
    ECashToken.newTotalSupplyOf (-(10 ^ 24 : Int)) Scenario.token0 = 0 :=
  (C10_no_zero_supply Scenario.token0 (-(10 ^ 24))
      (by norm_num [Scenario.token0, ECashToken.initialState,
        ECashToken.INITIAL_FRAGMENTS_SUPPLY])).1
    ⟨by norm_num,
      by norm_num [Scenario.token0, ECashToken.initialState, ECashToken.INITIAL_FRAGMENTS_SUPPLY]⟩

/-- Helper: a successful `rebase()` call either keeps the circuit-breaker
flag as it was, or latches it from `false` to `true` under a successful
oracle reading whose deviation reaches the top band. -/
theorem rebase_ok_circuitBreaker (now : Nat) (oracle : StabilizationController.OracleOutcome)
    (s s1 : StabilizationController.State)
    (h : StabilizationController.rebase now oracle s = Except.ok s1) :
    s1.circuitBreakerActive = s.circuitBreakerActive ∨
      (s.circuitBreakerActive = false ∧ s1.circuitBreakerActive = true ∧
        ∃ price timestamp confidence,
          oracle = Except.ok (price, timestamp, confidence) ∧ 50 ≤ confidence ∧
          StabilizationController.BAND_4_THRESHOLD ≤
            StabilizationController.calculateDeviation price) := by
  unfold StabilizationController.rebase at h
  split at h
  · cases h
  · split at h
    · cases h
    · rename_i hcb _
      split at h
      · cases h
      · rename_i price timestamp confidence
        split at h
        · cases h
        · rename_i hconf
          split at h
          · rename_i hdev
            cases h
            right
            refine ⟨by simpa using hcb, rfl, price, timestamp, confidence, rfl, by omega, hdev⟩
          · split at h
            · split at h
              · cases h
              · cases h
                left
                rfl
            · cases h
              left
              rfl

/-- C2: over every controller state and every externally triggerable
operation, the circuit-breaker flag flips from Normal (`false`) to Active
(`true`) only through a `rebase()` call whose successful oracle reading
has sufficient confidence and a deviation at or above the 20% top band,
and flips from Active back to Normal only through `resetCircuitBreaker()`
— never from a price reading (`previewRebase` or a failed `rebase`). -/
theorem C2_circuit_breaker_transitions (s : StabilizationController.State)
    (op : StabilizationController.Op) :
    (s.circuitBreakerActive = false →
      (StabilizationController.applyOp op s).circuitBreakerActive = true →
      ∃ now price timestamp confidence,
        op = StabilizationController.Op.doRebase now (Except.ok (price, timestamp, confidence)) ∧
        50 ≤ confidence ∧
        StabilizationController.BAND_4_THRESHOLD ≤
          StabilizationController.calculateDeviation price) ∧
    (s.circuitBreakerActive = true →
      (StabilizationController.applyOp op s).circuitBreakerActive = false →
      op = StabilizationController.Op.doReset) := by
  constructor
  · intro hfalse htrue
    match op with
    | StabilizationController.Op.doReset =>
      simp [StabilizationController.applyOp, StabilizationController.resetCircuitBreaker] at htrue
    | StabilizationController.Op.doPreview now oracle =>
      simp [StabilizationController.applyOp] at htrue
      rw [hfalse] at htrue
      cases htrue
    | StabilizationController.Op.doRebase now oracle =>
      simp only [StabilizationController.applyOp] at htrue
      rcases hres : StabilizationController.rebase now oracle s with e | s1
      · rw [hres] at htrue
        rw [hfalse] at htrue
        cases htrue
      · rw [hres] at htrue
        rcases rebase_ok_circuitBreaker now oracle s s1 hres with hsame | ⟨_, _, price, timestamp, confidence, hor, hconf, hdev⟩
        · rw [htrue, hfalse] at hsame
          cases hsame
        · exact ⟨now, price, timestamp, confidence, by rw [hor], hconf, hdev⟩
  · intro htrue hfalse
    match op with
    | StabilizationController.Op.doReset => rfl
    | StabilizationController.Op.doPreview now oracle =>
      simp only [StabilizationController.applyOp] at hfalse
      rw [htrue] at hfalse
      cases hfalse
    | StabilizationController.Op.doRebase now oracle =>
      simp only [StabilizationController.applyOp] at hfalse
      rcases hres : StabilizationController.rebase now oracle s with e | s1
      · rw [hres] at hfalse
        rw [htrue] at hfalse
        cases hfalse
      · exfalso
        unfold StabilizationController.rebase at hres
        rw [if_pos (by rw [htrue] : s.circuitBreakerActive = true)] at hres
        cases hres

/-- C2 witness: from the initial state, a rebase at price 0.75 dollars
(25% deviation) latches the breaker, and the latch is indeed attributed to
a top-band rebase. -/
theorem C2_circuit_breaker_transitions_witness :
    Scenario.ctrl0.circuitBreakerActive = false ∧
    (StabilizationController.applyOp
        (StabilizationController.Op.doRebase 43200 (Except.ok (75 * 10 ^ 16, 43200, 100)))
        Scenario.ctrl0).circuitBreakerActive = true ∧
    (∃ now price timestamp confidence,
      StabilizationController.Op.doRebase 43200 (Except.ok (75 * 10 ^ 16, 43200, 100)) =
        StabilizationController.Op.doRebase now (Except.ok (price, timestamp, confidence)) ∧
      50 ≤ confidence ∧
      StabilizationController.BAND_4_THRESHOLD ≤
        StabilizationController.calculateDeviation price) :=
  ⟨rfl, rfl, (C2_circuit_breaker_transitions Scenario.ctrl0
    (StabilizationController.Op.doRebase 43200
      (Except.ok (75 * 10 ^ 16, 43200, 100)))).1 rfl rfl⟩

/-- C3 counterexample: a rebase at exactly the target price (confidence
100, cooldown elapsed, band 0, computed delta 0) succeeds but returns the
state unchanged — `lastRebaseTime` stays 0 instead of advancing to the
call time 43200 and `rebaseCount` stays 0, refuting the claim that the
bookkeeping advances regardless of a zero delta. -/
theorem C3_counterexample :
    StabilizationController.rebase 43200
        (Except.ok (StabilizationController.TARGET_PRICE, 43200, 100)) Scenario.ctrl0 =
      Except.ok Scenario.ctrl0 ∧
    Scenario.ctrl0.lastRebaseTime = 0 ∧ Scenario.ctrl0.rebaseCount = 0 ∧ (0 : Nat) ≠ 43200 :=
  ⟨rfl, rfl, rfl, by norm_num⟩

/-- C3 amended: in a successful `rebase()` that passes the oracle and
band-4 checks, `lastRebaseTime` and `rebaseCount` advance exactly when
the computed delta is nonzero; a zero-delta rebase leaves the whole
controller state (balances and sharesPerUnit included) unchanged,
bookkeeping included. -/
theorem C3_bookkeeping_iff_nonzero_delta (now price timestamp confidence : Nat)
    (s s1 : StabilizationController.State)
    (h : StabilizationController.rebase now (Except.ok (price, timestamp, confidence)) s =
      Except.ok s1)
    (hband : StabilizationController.calculateDeviation price <
      StabilizationController.BAND_4_THRESHOLD) :
    (StabilizationController.supplyDeltaFor price s = 0 → s1 = s) ∧
    (StabilizationController.supplyDeltaFor price s ≠ 0 →
      s1.lastRebaseTime = now ∧ s1.rebaseCount = s.rebaseCount + 1) := by
  simp only [StabilizationController.rebase] at h
  split at h
  · cases h
  · split at h
    · cases h
    · split at h
      · cases h
      · split at h
        · rename_i hdev
          exact absurd hdev (by omega)
        · by_cases h0 : StabilizationController.supplyDeltaFor price s = 0
          · rw [if_neg (not_not_intro h0)] at h
            cases h
            exact ⟨fun _ => rfl, fun hnz => absurd h0 hnz⟩
          · rw [if_pos h0] at h
            split at h
            · cases h
            · cases h
              exact ⟨fun hz => absurd hz h0, fun _ => ⟨rfl, rfl⟩⟩

/-- C3 witness: the on-target rebase of the counterexample scenario has
computed delta 0 and by the amended theorem returns the state unchanged. -/
theorem C3_bookkeeping_iff_nonzero_delta_witness :
    StabilizationController.supplyDeltaFor StabilizationController.TARGET_PRICE
      Scenario.ctrl0 = 0 ∧
    Scenario.ctrl0 = Scenario.ctrl0 :=
  ⟨rfl, (C3_bookkeeping_iff_nonzero_delta 43200 StabilizationController.TARGET_PRICE 43200 100
      Scenario.ctrl0 Scenario.ctrl0 rfl (by norm_num [StabilizationController.calculateDeviation,
        StabilizationController.TARGET_PRICE, StabilizationController.BAND_4_THRESHOLD])).1 rfl⟩

/-- C9 counterexample: when the oracle query succeeds with confidence 40
(below MIN_CONFIDENCE = 50) — a reading on which a real `rebase()` would
revert — `previewRebase()` still reports `canExecute = true` provided the
cooldown has elapsed and the breaker is clear, refuting the claim that
every oracle-unavailable outcome yields a non-executable projection. -/
theorem C9_counterexample :
    (40 : Nat) < 50 ∧
    (StabilizationController.previewRebase 43200 (Except.ok (10 ^ 18, 43200, 40))
        Scenario.ctrl0).canExecute = true :=
  ⟨by norm_num, rfl⟩

/-- C9 amended: `previewRebase()` is a total pure function (it never
reverts and returns only a projection, mutating nothing). When the
aggregated-price query itself reverts it returns the all-zero projection
with `canExecute = false`; when the query succeeds with confidence below
50 it zeroes the price, deviation, delta and band fields but `canExecute`
still reflects only the cooldown and circuit-breaker checks, so it can be
`true` even though a real `rebase()` would revert with
insufficient-oracle-confidence. -/
theorem C9_preview_degrades (now : Nat) (oracle : StabilizationController.OracleOutcome)
    (s : StabilizationController.State) :
    (∀ e, oracle = Except.error e →
      StabilizationController.previewRebase now oracle s =
        { canExecute := false, currentPrice := 0, deviation := 0
          projectedSupplyDelta := 0, stabilityBand := 0 }) ∧
    (∀ price timestamp confidence, oracle = Except.ok (price, timestamp, confidence) →
      confidence < 50 →
      StabilizationController.previewRebase now oracle s =
        { canExecute := StabilizationController.canRebase now s && !s.circuitBreakerActive
          currentPrice := 0, deviation := 0
          projectedSupplyDelta := 0, stabilityBand := 0 }) := by
  constructor
  · rintro e rfl
    rfl
  · rintro price timestamp confidence rfl hconf
    simp only [StabilizationController.previewRebase]
    rw [if_neg (by omega)]

/-- C9 witness: a reverting oracle query yields the all-zero
non-executable projection. -/
theorem C9_preview_degrades_witness :
    StabilizationController.previewRebase 0
        (Except.error OracleAggregator.AggError.insufficientValidOracles) Scenario.ctrl0 =
      { canExecute := false, currentPrice := 0, deviation := 0
        projectedSupplyDelta := 0, stabilityBand := 0 } :=
  (C9_preview_degrades 0 (Except.error OracleAggregator.AggError.insufficientValidOracles)
    Scenario.ctrl0).1 OracleAggregator.AggError.insufficientValidOracles rfl

/-- Helper: over a registry of active sources whose quotes carry timestamps
in `(0, now]`, the aggregation loop never reverts and its accumulator is
exactly the weighted sums, oldest timestamp and count over the quotes the
spec-side filter keeps. -/
theorem foldlM_aggStep_spec (now : Nat) (l : List OracleAggregator.Src)
    (acc : OracleAggregator.Acc)
    (hact : ∀ src ∈ l, src.isActive = true)
    (hts : ∀ src ∈ l, ∀ a u, src.fetch = some (a, u) → 0 < u ∧ u ≤ now) :
    l.foldlM (OracleAggregator.aggStep now) acc = Except.ok
      { totalWeight := acc.totalWeight +
          ((l.filter (OracleAggregator.specAccepts now)).map OracleAggregator.Src.weight).sum
        weightedSum := acc.weightedSum +
          ((l.filter (OracleAggregator.specAccepts now)).map
            (fun src => OracleAggregator.specValue src * src.weight)).sum
        oldestTimestamp := ((l.filter (OracleAggregator.specAccepts now)).map
            OracleAggregator.specTimestamp).foldl min acc.oldestTimestamp
        validOracles := acc.validOracles +
          (l.filter (OracleAggregator.specAccepts now)).length } := by
  induction l generalizing acc with
  | nil => rfl
  | cons src l ih =>
    have hsrc : src.isActive = true := hact src (List.mem_cons_self src l)
    have hactl : ∀ x ∈ l, x.isActive = true :=
      fun x hx => hact x (List.mem_cons_of_mem src hx)
    have htsl : ∀ x ∈ l, ∀ a u, x.fetch = some (a, u) → 0 < u ∧ u ≤ now :=
      fun x hx => hts x (List.mem_cons_of_mem src hx)
    rw [List.foldlM_cons]
    cases hf : src.fetch with
    | none =>
      have hstep : OracleAggregator.aggStep now acc src = Except.ok acc := by
        unfold OracleAggregator.aggStep
        rw [if_neg (by simp [hsrc])]
        simp only [hf]
      have hacc : OracleAggregator.specAccepts now src = false := by
        unfold OracleAggregator.specAccepts
        simp only [hf]
      rw [hstep, List.filter_cons_of_neg (by simp [hacc])]
      exact ih acc hactl htsl
    | some q =>
      obtain ⟨a, u⟩ := q
      obtain ⟨hu0, hun⟩ := hts src (List.mem_cons_self src l) a u hf
      by_cases ha : 0 < a
      · by_cases hhb : now - u ≤ src.heartbeat
        · have hstep : OracleAggregator.aggStep now acc src = Except.ok
              { totalWeight := acc.totalWeight + src.weight
                weightedSum := acc.weightedSum +
                  OracleAggregator.normalizePrice a.toNat src.decimals * src.weight
                oldestTimestamp :=
                  if u < acc.oldestTimestamp then u else acc.oldestTimestamp
                validOracles := acc.validOracles + 1 } := by
            unfold OracleAggregator.aggStep
            rw [if_neg (by simp [hsrc])]
            simp only [hf]
            rw [if_pos ⟨ha, hu0⟩, if_neg (by omega), if_pos hhb]
          have hacc : OracleAggregator.specAccepts now src = true := by
            unfold OracleAggregator.specAccepts
            simp only [hf]
            simp [ha, hhb]
          have hval : OracleAggregator.specValue src =
              OracleAggregator.normalizePrice a.toNat src.decimals := by
            unfold OracleAggregator.specValue
            simp only [hf]
          have htime : OracleAggregator.specTimestamp src = u := by
            unfold OracleAggregator.specTimestamp
            simp only [hf]
          rw [hstep, List.filter_cons_of_pos hacc]
          refine Eq.trans (ih _ hactl htsl) ?_
          refine congrArg Except.ok ?_
          simp only [List.map_cons, List.sum_cons, List.foldl_cons, List.length_cons,
            hval, htime, OracleAggregator.Acc.mk.injEq]
          refine ⟨by omega, by omega, ?_, by omega⟩
          refine congrArg (fun x => List.foldl min x
            ((l.filter (OracleAggregator.specAccepts now)).map
              OracleAggregator.specTimestamp)) ?_
          split <;> omega
        · have hstep : OracleAggregator.aggStep now acc src = Except.ok acc := by
            unfold OracleAggregator.aggStep
            rw [if_neg (by simp [hsrc])]
            simp only [hf]
            rw [if_pos ⟨ha, hu0⟩, if_neg (by omega), if_neg hhb]
          have hacc : OracleAggregator.specAccepts now src = false := by
            unfold OracleAggregator.specAccepts
            simp only [hf]
            simp [ha, hhb]
          rw [hstep, List.filter_cons_of_neg (by simp [hacc])]
          exact ih acc hactl htsl
      · have hstep : OracleAggregator.aggStep now acc src = Except.ok acc := by
          unfold OracleAggregator.aggStep
          rw [if_neg (by simp [hsrc])]
          simp only [hf]
          rw [if_neg (fun hc => ha hc.1)]
        have hacc : OracleAggregator.specAccepts now src = false := by
          unfold OracleAggregator.specAccepts
          simp only [hf]
          simp [ha]
        rw [hstep, List.filter_cons_of_neg (by simp [hacc])]
        exact ih acc hactl htsl

/-- C7: over any registry of active sources whose quotes carry timestamps
in `(0, now]`, `getAggregatedPrice` agrees with the spec-side aggregation:
it discards exactly the quotes whose age exceeds their heartbeat or whose
value is non-positive, and on success returns
`(weightedSum / totalWeight, oldest accepted timestamp,
validSources * 100 / activeSources)` with floor division — and when the
spec-side aggregation is undefined (no surviving source or zero total
weight), the call reverts. -/
theorem C7_aggregation_refines_spec (now : Nat) (sources : List OracleAggregator.Src)
    (hact : ∀ src ∈ sources, src.isActive = true)
    (hts : ∀ src ∈ sources, ∀ a u, src.fetch = some (a, u) → 0 < u ∧ u ≤ now)
    (hne : sources ≠ []) :
    (∀ r, OracleAggregator.specAggregate now sources = some r →
        OracleAggregator.getAggregatedPrice now sources = Except.ok r) ∧
    (OracleAggregator.specAggregate now sources = none →
        ∃ e, OracleAggregator.getAggregatedPrice now sources = Except.error e) := by
  have hlen : ¬ sources.length < OracleAggregator.MIN_ORACLES_REQUIRED := by
    have hpos : 0 < sources.length := List.length_pos.mpr hne
    unfold OracleAggregator.MIN_ORACLES_REQUIRED
    omega
  unfold OracleAggregator.getAggregatedPrice
  rw [if_neg hlen,
    foldlM_aggStep_spec now sources ⟨0, 0, OracleAggregator.UINT256_MAX, 0⟩ hact hts]
  simp only [OracleAggregator.specAggregate, OracleAggregator.MIN_ORACLES_REQUIRED,
    Nat.zero_add]
  by_cases hcond : (sources.filter (OracleAggregator.specAccepts now)).length < 1 ∨
      ((sources.filter (OracleAggregator.specAccepts now)).map
        OracleAggregator.Src.weight).sum = 0
  · constructor
    · rintro ⟨p, t, c⟩ hspec
      rw [if_pos hcond] at hspec
      cases hspec
    · intro _
      by_cases hL : (sources.filter (OracleAggregator.specAccepts now)).length < 1
      · rw [if_pos hL]
        exact ⟨OracleAggregator.AggError.insufficientValidOracles, rfl⟩
      · have hW : ((sources.filter (OracleAggregator.specAccepts now)).map
            OracleAggregator.Src.weight).sum = 0 := by
          rcases hcond with h | h
          · exact absurd h hL
          · exact h
        rw [if_neg hL, if_pos hW]
        exact ⟨OracleAggregator.AggError.noValidOracleData, rfl⟩
  · have hL : ¬ (sources.filter (OracleAggregator.specAccepts now)).length < 1 :=
      fun h => hcond (Or.inl h)
    have hW : ¬ ((sources.filter (OracleAggregator.specAccepts now)).map
        OracleAggregator.Src.weight).sum = 0 :=
      fun h => hcond (Or.inr h)
    constructor
    · rintro ⟨p, t, c⟩ hspec
      rw [if_neg hcond] at hspec
      rw [if_neg hL, if_neg hW]
      exact congrArg Except.ok (Option.some.inj hspec)
    · intro hnone
      rw [if_neg hcond] at hnone
      cases hnone

/-- C7 witness: two registered sources of equal weight, one stale (age 900
against heartbeat 60): confidence is 50 and the aggregated price is the
fresh source value 1.01 alone, with the fresh quote timestamp. -/
theorem C7_aggregation_refines_spec_witness :
    OracleAggregator.getAggregatedPrice 1000 [Scenario.freshSrc, Scenario.staleSrc] =
      Except.ok (101 * 10 ^ 16, 900, 50) :=
  (C7_aggregation_refines_spec 1000 [Scenario.freshSrc, Scenario.staleSrc]
      (by decide)
      (by
        intro src hsrc a u hfu
        simp only [List.mem_cons, List.not_mem_nil, or_false] at hsrc
        rcases hsrc with rfl | rfl
        · simp only [Scenario.freshSrc] at hfu
          injection hfu with h1
          have h2 : (900 : Nat) = u := congrArg Prod.snd h1
          omega
        · simp only [Scenario.staleSrc] at hfu
          injection hfu with h1
          have h2 : (100 : Nat) = u := congrArg Prod.snd h1
          omega)
      (by simp)).1
    (101 * 10 ^ 16, 900, 50) rfl
